import Mathlib

/-!
Verification of the prompt-construction and response-validation pipeline of the
clinical-documentation tool (services/geminiService.ts and App.tsx).

The TypeScript source is shallowly embedded: plain records become structures,
JS objects (insertion-ordered string-keyed maps) become association lists,
JS string operations become executable Lean string functions, and the two
asynchronous entry points `generateNotes` / `generateAssessment` become pure
functions over an explicit environment recording whether the credential is
present and what the external model call would return.  Constants that live in
`constants.ts` (not part of the embedded source) are modelled from the spec and
marked as such in their doc comments.
-/

namespace ClinDoc

/-- JS falsiness for the string values used by the source: `""` is falsy,
every other string truthy. -/
def truthy (s : String) : Bool := s != ""

/-- Embedding of the JavaScript builtin `String.prototype.trim`: drop leading
and trailing whitespace characters. -/
def jsTrim (s : String) : String :=
  String.mk (((s.data.dropWhile Char.isWhitespace).reverse.dropWhile Char.isWhitespace).reverse)

/-- Embedding of JavaScript `Array.prototype.join(sep)`. -/
def joinWith (sep : String) : List String → String
  | [] => ""
  | [s] => s
  | s :: rest => s ++ sep ++ joinWith sep rest

/-- Plain concatenation of a list of strings (used on the specification side
to state how per-section fragments compose). -/
def strJoin : List String → String
  | [] => ""
  | s :: rest => s ++ strJoin rest

/-- `n` newline characters. -/
def newlines : Nat → String
  | 0 => ""
  | n + 1 => "\n" ++ newlines n

/-- `hasSub s t` decides whether `t` occurs as a contiguous substring of `s`
(character-list infix). -/
def hasSub (s t : String) : Bool :=
  (List.range (s.data.length + 1)).any (fun i => (s.data.drop i).take t.data.length == t.data)

/- ## Data model (types.ts is not part of the embedded source; the record
shapes are reconstructed from every field access in the embedded code and from
the spec's data-model section). -/

/-- A client's optional structured profile.  Scalar fields are strings with
`""` standing for a missing/empty (falsy) value; list fields use `[]` for a
missing or empty array; `readinessRuler` is a JS number (`0` falsy) or absent. -/
structure ClientProfile where
  intakeDate : String
  presentingProblem : String
  stageOfChange : String
  primaryMotivators : String
  readinessRuler : Option Nat
  mbti : String
  strengths : List String
  skillsAndHobbies : List String
  supportSystem : List String
  barriers : List String
  caseManagementNeeds : List String
  historyOfTrauma : Bool
  historyOfSubstanceUse : Bool
  significantMedicalConditions : Bool
  notesOnHistory : String
deriving DecidableEq

structure Client where
  id : String
  name : String
  profile : Option ClientProfile
  programId : String
deriving DecidableEq

structure Program where
  id : String
  name : String
  partnerId : String
deriving DecidableEq

structure Partner where
  id : String
  name : String
deriving DecidableEq

structure Document where
  id : String
  title : String
  content : String
deriving DecidableEq

/-- Session selections: a mapping from observation-group name to the list of
checked option labels, plus a mapping from group name to free-text narrative.
JS objects are insertion-ordered string-keyed maps, embedded as association
lists. -/
structure Selections where
  checkboxes : List (String × List String)
  narratives : List (String × String)
deriving DecidableEq

/-- `selections.narratives[group]` with JS falsiness: an absent key behaves
like the empty string. -/
def narrativeOf (s : Selections) (group : String) : String :=
  match s.narratives.find? (fun q => q.fst == group) with
  | some q => q.snd
  | none => ""

structure GeneratedNote where
  clientId : String
  clientName : String
  note : String
deriving DecidableEq

structure GeneratedAssessment where
  clientName : String
  assessmentText : String
deriving DecidableEq

/-- The note type is a TS string enum (variants live in types.ts, outside the
embedded source); only its string value is used, via interpolation. -/
abbrev NoteType := String

/-- The assessment type is likewise a TS string enum. -/
abbrev AssessmentType := String

structure ClientInfoForAssessment where
  name : String
  dateOfBirth : String
  dateOfAssessment : String
  clinicianName : String
deriving DecidableEq

/-- An assessment field descriptor (id and display label), from the static
section tables in constants.ts. -/
structure AField where
  id : String
  label : String
deriving DecidableEq

/-- An assessment section descriptor: id, display title and the declared,
ordered field list. -/
structure ASection where
  id : String
  title : String
  fields : List AField
deriving DecidableEq

/-- AssessmentData: mapping from section id to a mapping from field id to
free-text value (both JS objects, embedded as association lists). -/
def AssessmentData := List (String × List (String × String))

/-- `data[sectionId]`: the stored record for a section, if any. -/
def lookupSection (d : AssessmentData) (k : String) : Option (List (String × String)) :=
  (d.find? (fun q => q.fst == k)).map (fun q => q.snd)

/-- `sectionData[fieldId]` with JS falsiness: an absent key behaves like the
empty string. -/
def lookupField (sd : List (String × String)) (k : String) : String :=
  match sd.find? (fun q => q.fst == k) with
  | some q => q.snd
  | none => ""

/- ## Prompt Formatter (services/geminiService.ts) -/

/-- The five profile sections of `formatClientProfileForPrompt`
(src/unnamed/part_000 lines 14–44), in source order.  Each entry is `none`
when its JS truthiness guard fails and `some line` otherwise, mirroring the
`guard && template` idiom that the source later strips with
`.filter(Boolean)`. -/
def profileSections (profile : ClientProfile) (program : Option Program)
    (partner : Option Partner) : List (String × List (Option String)) :=
  [ ("Core Information",
      [ partner.map (fun pa => "**Partner:** " ++ pa.name),
        program.map (fun pr => "**Program:** " ++ pr.name),
        if truthy profile.intakeDate then some ("**Intake Date:** " ++ profile.intakeDate) else none,
        if truthy profile.presentingProblem then
          some ("**Presenting Problem:** " ++ profile.presentingProblem) else none ]),
    ("Clinical Framework",
      [ if truthy profile.stageOfChange then
          some ("**Stage of Change:** " ++ profile.stageOfChange) else none,
        if truthy profile.primaryMotivators then
          some ("**Primary Motivators:** " ++ profile.primaryMotivators) else none,
        match profile.readinessRuler with
        | some n => if n != 0 then some ("**Readiness Ruler:** " ++ toString n ++ "/10") else none
        | none => none,
        if truthy profile.mbti then some ("**MBTI Type:** " ++ profile.mbti) else none ]),
    ("Strengths & Supports",
      [ if profile.strengths.length != 0 then
          some ("**Strengths:** " ++ joinWith ", " profile.strengths) else none,
        if profile.skillsAndHobbies.length != 0 then
          some ("**Skills/Hobbies:** " ++ joinWith ", " profile.skillsAndHobbies) else none,
        if profile.supportSystem.length != 0 then
          some ("**Support System:** " ++ joinWith ", " profile.supportSystem) else none ]),
    ("Barriers & Needs",
      [ if profile.barriers.length != 0 then
          some ("**Barriers:** " ++ joinWith ", " profile.barriers) else none,
        if profile.caseManagementNeeds.length != 0 then
          some ("**Case Management Needs:** " ++ joinWith ", " profile.caseManagementNeeds) else none ]),
    ("History",
      [ if profile.historyOfTrauma || profile.historyOfSubstanceUse
           || profile.significantMedicalConditions then
          some ("**Flags:** " ++ joinWith ", "
            (([ if profile.historyOfTrauma then some "Trauma" else none,
                if profile.historyOfSubstanceUse then some "Substance Use" else none,
                if profile.significantMedicalConditions then some "Medical Conditions" else none
              ] : List (Option String)).filterMap id))
        else none,
        if truthy profile.notesOnHistory then
          some ("**Notes on History:** " ++ profile.notesOnHistory) else none ]) ]

/-- Embedding of `formatClientProfileForPrompt` (src/unnamed/part_000 lines
7–55): the no-profile early return; resolution of the client's Program and the
Program's Partner by id; then a `for … in` loop over the section table that
appends, for each section whose surviving lines are non-empty, the lines as
`- ` bullets joined by newlines plus a trailing newline — the loop reads the
section title only as the loop key and never writes it to the output. -/
def formatClientProfileForPrompt (client : Client) (programs : List Program)
    (partners : List Partner) : String :=
  match client.profile with
  | none => "### Client: " ++ client.name ++ " (ID: " ++ client.id ++ ")\n- Profile data is not available."
  | some profile =>
    let program := programs.find? (fun p => p.id == client.programId)
    let partner := match program with
      | some pr => partners.find? (fun p => p.id == pr.partnerId)
      | none => none
    (profileSections profile program partner).foldl
      (fun acc sec =>
        let lines := sec.snd.filterMap id
        if lines.length > 0 then
          acc ++ (joinWith "\n" (lines.map (fun l => "- " ++ l)) ++ "\n")
        else acc)
      ("### Client Information for: " ++ client.name ++ " (ID: " ++ client.id ++ ")\n")

/-- The `selectionDetails` computation inside `buildPrompt`
(src/unnamed/part_000 lines 71–77): `Object.entries(selections.checkboxes)`
is mapped — a group whose checked list is empty and whose narrative is falsy
maps to `''`, every other group to a `- **group:** opts` line with an optional
narrative clause — and the mapped array is joined with `"\n"`. -/
def selectionDetails (selections : Selections) : String :=
  joinWith "\n" (selections.checkboxes.map (fun p =>
    if p.snd.length == 0 && !(truthy (narrativeOf selections p.fst)) then ""
    else
      let narrativeText :=
        if truthy (narrativeOf selections p.fst) then
          "\n  - **Narrative:** " ++ narrativeOf selections p.fst
        else ""
      "- **" ++ p.fst ++ ":** " ++ joinWith ", " p.snd ++ narrativeText))

/-- Specification-side rendering of one observation group, written from the
spec's words (amended): a group with at least one checked option or a
non-empty narrative yields one line — group name, comma-joined checked
options, and an appended narrative clause when present — and a group with
neither yields the empty string (which still takes part in the newline
join). -/
def formatSelectionsSpecEntry (selections : Selections) (p : String × List String) : String :=
  if p.snd ≠ [] ∨ narrativeOf selections p.fst ≠ "" then
    "- **" ++ p.fst ++ ":** " ++ joinWith ", " p.snd ++
      (if narrativeOf selections p.fst ≠ "" then
        "\n  - **Narrative:** " ++ narrativeOf selections p.fst
      else "")
  else ""

/-- Embedding of `formatAssessmentDataForPrompt` (src/unnamed/part_000 lines
116–137).  The source selects the static section table from the assessment
type (`INITIAL_ASSESSMENT_SECTIONS` / `COMPREHENSIVE_ASSESSMENT_SECTIONS`,
which live in constants.ts outside the embedded source), so the caller-supplied
section list is a parameter here; the loop body is the source's: skip a section
whose stored record is absent or all-falsy, otherwise emit `\n## title\n` and
then, per declared field, a labeled paragraph when the value is truthy and
non-blank after trimming.  (The source's `hasDataInSection` local is written
but never read, and is omitted.) -/
def formatAssessmentDataForPrompt (sections : List ASection) (data : AssessmentData) : String :=
  sections.foldl
    (fun output sec =>
      match lookupSection data sec.id with
      | none => output
      | some sectionData =>
        if sectionData.all (fun q => q.snd == "") then output
        else
          sec.fields.foldl
            (fun o f =>
              let v := lookupField sectionData f.id
              if truthy v && truthy (jsTrim v) then
                o ++ ("- **" ++ f.label ++ "**\n  - " ++ jsTrim v ++ "\n")
              else o)
            (output ++ ("\n## " ++ sec.title ++ "\n")))
    ""

/-- Specification-side rendering of one assessment section, written from the
spec's words (amended): a section contributes nothing when it has no stored
record or every stored value is the empty string; otherwise it contributes its
heading followed by one labeled paragraph per declared field whose value is
non-blank after trimming, in declared field order. -/
def assessmentSectionSpecText (data : AssessmentData) (sec : ASection) : String :=
  match lookupSection data sec.id with
  | none => ""
  | some sectionData =>
    if sectionData.all (fun q => q.snd == "") then ""
    else
      "\n## " ++ sec.title ++ "\n" ++
        strJoin (sec.fields.map (fun f =>
          let v := lookupField sectionData f.id
          if jsTrim v ≠ "" then "- **" ++ f.label ++ "**\n  - " ++ jsTrim v ++ "\n" else ""))

/- ## Prompt Builder (services/geminiService.ts) -/

/-- Modelled from the spec: the static note template text keyed by note type
(`NOTE_TEMPLATES` lives in constants.ts, outside the embedded source — "the
static note template text keyed by noteType"). -/
def NOTE_TEMPLATES (t : NoteType) : String :=
  "Note template for: " ++ (t : String)

/-- Embedding of `buildPrompt` (src/unnamed/part_000 lines 58–114): client
profile blocks joined by newline, the selection details, the optional document
context block, and the fixed instructional preamble around them. -/
def buildPrompt (noteType : NoteType) (clients : List Client) (programs : List Program)
    (partners : List Partner) (documents : List Document) (sessionIntervention : String)
    (selections : Selections) : String :=
  let clientInfo := joinWith "\n"
    (clients.map (fun c => formatClientProfileForPrompt c programs partners))
  let selDetails := selectionDetails selections
  let documentContext :=
    if documents.length > 0 then
      "\n**Background Knowledge Documents:**\nYou have access to the following documents to improve the quality and accuracy of your output. Refer to this information when relevant, especially for following guidelines from Wiley Treatment Planners or other specific frameworks mentioned.\n\n"
        ++ joinWith "\n\n" (documents.map (fun d => "--- Document: " ++ d.title ++ " ---\n" ++ d.content))
        ++ "\n\n--- End of Documents ---\n"
    else ""
  "\nYou are an expert clinical documentation assistant. Your purpose is to help clinicians write CARF/OMHAS-compliant progress notes for ICANOTES, based on Wiley treatment planners. The tone must be strengths-based, recovery-oriented, and professional. You must generate a complete, narrative-style note for each client based on the provided template and information.\n\n**Mission Critical Instructions:**\n1.  Generate a separate and complete note for EACH client provided.\n2.  Strictly adhere to the structure and headings provided in the Note Template for the specified note type.\n3.  Seamlessly integrate the information from \"Clinician's Observations\" and the detailed \"Client Information\" into the narrative. DO NOT just list the checkbox items or profile data. Use them to inform the descriptive language of the note, creating a rich, cohesive story of the session.\n4.  If Background Knowledge Documents are provided, you MUST use them as a primary reference to guide the content, structure, and language of the notes.\n5.  The final output MUST be a valid JSON array, where each object represents a client's note.\n\n"
    ++ documentContext
    ++ "\n\n**Note Type to Generate:** " ++ (noteType : String)
    ++ "\n\n**Session Information:**\n- **Core Session Intervention/Topic:** " ++ sessionIntervention
    ++ "\n- **Clinician's Observations (Checkboxes and Narratives):**\n" ++ selDetails
    ++ "\n\n" ++ clientInfo
    ++ "\n\n**Note Template to Follow:**\n" ++ NOTE_TEMPLATES noteType
    ++ "\n\nGenerate the note(s) now.\n"

/-- Embedding of `buildAssessmentPrompt` (src/unnamed/part_000 lines 146–181):
each client identity field falls back to `'Not Provided'` when falsy, and the
formatted assessment data block is spliced into the fixed preamble.  The static
section table is a parameter for the same reason as in
`formatAssessmentDataForPrompt`. -/
def buildAssessmentPrompt (clientInfo : ClientInfoForAssessment)
    (assessmentType : AssessmentType) (sections : List ASection)
    (assessmentData : AssessmentData) : String :=
  let orNotProvided := fun (s : String) => if truthy s then s else "Not Provided"
  let clientDetails :=
    "\n- **Client Name:** " ++ orNotProvided clientInfo.name
      ++ "\n- **Date of Birth:** " ++ orNotProvided clientInfo.dateOfBirth
      ++ "\n- **Date of Assessment:** " ++ orNotProvided clientInfo.dateOfAssessment
      ++ "\n- **Clinician Name:** " ++ orNotProvided clientInfo.clinicianName
      ++ "\n  "
  let formattedData := formatAssessmentDataForPrompt sections assessmentData
  "\nYou are an expert clinical writer specializing in comprehensive psychological and substance use assessments. Your task is to synthesize the provided clinician's notes into a formal, narrative-style assessment document. The document must be well-organized, professional, and use appropriate clinical language.\n\n**Client & Assessment Information:**\n"
    ++ clientDetails
    ++ "\n\n**Assessment Type to Generate:** " ++ (assessmentType : String)
    ++ "\n\n**Clinician's Notes / Data Points:**\n" ++ formattedData
    ++ "\n\n**Mission Critical Instructions:**\n1.  Generate a complete and cohesive **" ++ (assessmentType : String)
    ++ "**.\n2.  Use the provided **Clinician's Notes** to construct the assessment. Transform the notes from bullet points or brief statements into full, well-written paragraphs under the appropriate headings.\n3.  Structure the output logically, following the standard sections of a clinical assessment (e.g., Presenting Problem, Risk Assessment, Substance Use History, etc.).\n4.  Ensure the tone is objective, formal, and clinical.\n5.  Do not just repeat the notes. You must integrate them into a flowing, professional narrative.\n6.  If a section in the clinician's notes is empty, you may state \"Information not provided\" or omit the section if appropriate.\n7.  The final output must be a single block of formatted text. **DO NOT** use JSON.\n\nGenerate the complete assessment document now.\n"

/- ## Generation Client (services/geminiService.ts) -/

/-- The process/service environment of one call: whether `process.env.API_KEY`
is set, the outcome the external model endpoint would produce for a given
prompt (`Except.error` carries the thrown `Error`'s message), and the outcome
of `JSON.parse` plus the cast to `GeneratedNote[]` on a given response text
(`Except.error` carries the `SyntaxError`'s message).  Both collaborators are
outside the repository; modelling them as oracles lets the embedded control
flow of `generateNotes` / `generateAssessment` stay exactly the source's. -/
structure Env where
  apiKeyPresent : Bool
  respond : String → Except String String
  parseNotes : String → Except String (List GeneratedNote)

/-- The observable outcome of one `generateNotes` call: the settled promise
(`Except.error` is a rejection with the given message) and whether an external
request was issued before settling. -/
structure NotesOutcome where
  result : Except String (List GeneratedNote)
  requestIssued : Bool

/-- The observable outcome of one `generateAssessment` call. -/
structure AssessmentOutcome where
  result : Except String GeneratedAssessment
  requestIssued : Bool

/-- Embedding of `generateNotes` (src/unnamed/part_000 lines 184–247): missing
credential throws before anything else; an empty client list returns `[]`
without calling the endpoint; otherwise the prompt is built and sent, the
response text is parsed as a `GeneratedNote` array, and the parsed entries are
filtered to the ids of the requested clients (`new Set(clients.map(c => c.id))`
membership); a thrown transport or parse error is re-surfaced as a rejection
prefixed `Failed to generate notes from AI: `. -/
def generateNotes (env : Env) (noteType : NoteType) (clients : List Client)
    (programs : List Program) (partners : List Partner) (documents : List Document)
    (sessionIntervention : String) (selections : Selections) : NotesOutcome :=
  if !env.apiKeyPresent then
    { result := Except.error "API key is missing. Please set the API_KEY environment variable.",
      requestIssued := false }
  else if clients.length == 0 then
    { result := Except.ok [], requestIssued := false }
  else
    let prompt := buildPrompt noteType clients programs partners documents sessionIntervention selections
    match env.respond prompt with
    | Except.error msg =>
      { result := Except.error ("Failed to generate notes from AI: " ++ msg), requestIssued := true }
    | Except.ok jsonText =>
      match env.parseNotes jsonText with
      | Except.error msg =>
        { result := Except.error ("Failed to generate notes from AI: " ++ msg), requestIssued := true }
      | Except.ok parsed =>
        let clientIds := clients.map (fun c => c.id)
        { result := Except.ok (parsed.filter (fun n => clientIds.contains n.clientId)),
          requestIssued := true }

/-- Embedding of `generateAssessment` (src/unnamed/part_000 lines 250–281):
same credential precheck; one unstructured request; the raw response text is
wrapped with the client's display name; a thrown error is re-surfaced as a
rejection prefixed `Failed to generate assessment from AI: `. -/
def generateAssessment (env : Env) (clientInfo : ClientInfoForAssessment)
    (assessmentType : AssessmentType) (sections : List ASection)
    (assessmentData : AssessmentData) : AssessmentOutcome :=
  if !env.apiKeyPresent then
    { result := Except.error "API key is missing. Please set the API_KEY environment variable.",
      requestIssued := false }
  else
    let prompt := buildAssessmentPrompt clientInfo assessmentType sections assessmentData
    match env.respond prompt with
    | Except.error msg =>
      { result := Except.error ("Failed to generate assessment from AI: " ++ msg), requestIssued := true }
    | Except.ok text =>
      { result := Except.ok { clientName := clientInfo.name, assessmentText := text },
        requestIssued := true }

/- ## Partner/program roster management (App.tsx) -/

/-- Modelled from the spec: `PROGRAM_NAMES` lives in constants.ts, outside the
embedded source — "a fixed, ordered, three-element name list" from which the
three standard programs of a new partner draw their names.  The concrete
names are not given by the spec; three fixed placeholder names stand in. -/
def PROGRAM_NAMES : List String :=
  ["Standard Program One", "Standard Program Two", "Standard Program Three"]

/-- The slice of App state that `handleAddPartner` touches. -/
structure RosterState where
  partners : List Partner
  programs : List Program
deriving DecidableEq

/-- Embedding of `handleAddPartner` (src/App.tsx lines 97–109): a fresh partner
id derived from `Date.now()` (the timestamp is a parameter), the new partner
appended to the partner list, and one program per `PROGRAM_NAMES` entry —
with id `prog-<partnerId>-<index+1>` and `partnerId` pointing at the new
partner — appended to the program list. -/
def handleAddPartner (st : RosterState) (partnerName : String) (now : Nat) : RosterState :=
  let newPartnerId := "partner-" ++ toString now
  let newPartner : Partner := { id := newPartnerId, name := partnerName }
  let newProgramsForPartner : List Program :=
    PROGRAM_NAMES.enum.map (fun p =>
      { id := "prog-" ++ newPartnerId ++ "-" ++ toString (p.fst + 1),
        name := p.snd,
        partnerId := newPartnerId })
  { partners := st.partners ++ [newPartner],
    programs := st.programs ++ newProgramsForPartner }

/- ## Spec-side section rendering for the amended profile-formatting claim -/

/-- Specification-side rendering of one profile section's surviving lines:
nothing at all when no line survives, otherwise the lines as `- ` bullets
joined by newlines with a trailing newline.  Note it receives only the lines:
the section title plays no part in the rendering. -/
def renderSectionLines (lines : List String) : String :=
  if lines.length > 0 then joinWith "\n" (lines.map (fun l => "- " ++ l)) ++ "\n" else ""

/- ## Helper lemmas -/

theorem foldl_append_of_body {α : Type} (body : String → α → String) (f : α → String)
    (hb : ∀ acc x, body acc x = acc ++ f x) :
    ∀ (l : List α) (init : String), l.foldl body init = init ++ strJoin (l.map f) := by
  intro l
  induction l with
  | nil => intro init; simp [strJoin, String.append_empty]
  | cons x xs ih =>
    intro init
    simp only [List.foldl, List.map, strJoin]
    rw [hb, ih, String.append_assoc]

theorem if_append (c : Prop) [Decidable c] (acc A : String) :
    (if c then acc ++ A else acc) = acc ++ (if c then A else "") := by
  by_cases h : c <;> simp [h, String.append_empty]

theorem map_eq_replicate_empty {α : Type} (f : α → String) :
    ∀ (l : List α), (∀ x ∈ l, f x = "") → l.map f = List.replicate l.length "" := by
  intro l
  induction l with
  | nil => intro _; rfl
  | cons x xs ih =>
    intro h
    simp only [List.map, List.length_cons, List.replicate]
    rw [h x (List.mem_cons_self x xs), ih (fun y hy => h y (List.mem_cons_of_mem x hy))]

theorem joinWith_replicate_empty :
    ∀ n, joinWith "\n" (List.replicate n "") = newlines (n - 1) := by
  intro n
  induction n with
  | zero => rfl
  | succ m ih =>
    match m, ih with
    | 0, _ => rfl
    | k + 1, ih =>
      show "" ++ "\n" ++ joinWith "\n" ("" :: List.replicate k "") = newlines (k + 1)
      have ih2 : joinWith "\n" ("" :: List.replicate k "") = newlines k := ih
      rw [String.empty_append, ih2]
      rfl

theorem find_filter_ne (g h : String) (hne : h ≠ g) :
    ∀ (narr : List (String × String)),
      (narr.filter (fun q => !(q.fst == g))).find? (fun q => q.fst == h) =
        narr.find? (fun q => q.fst == h) := by
  intro narr
  induction narr with
  | nil => rfl
  | cons q rest ih =>
    by_cases hg : q.fst = g
    · have h1 : (q.fst == g) = true := by simp [hg]
      have h2 : (q.fst == h) = false := by
        simp only [beq_eq_false_iff_ne, ne_eq]
        intro hq; exact hne (hq ▸ hg ▸ rfl)
      simp [List.filter, List.find?, h1, h2, ih]
    · have h1 : (q.fst == g) = false := by simp [hg]
      by_cases hh : q.fst = h
      · have h2 : (q.fst == h) = true := by simp [hh]
        simp [List.filter, List.find?, h1, h2]
      · have h2 : (q.fst == h) = false := by simp [hh]
        simp [List.filter, List.find?, h1, h2, ih]

theorem narrativeOf_filter_ne (cb : List (String × List String))
    (narr : List (String × String)) (g h : String) (hne : h ≠ g) :
    narrativeOf { checkboxes := cb, narratives := narr.filter (fun q => !(q.fst == g)) } h =
      narrativeOf { checkboxes := cb, narratives := narr } h := by
  simp only [narrativeOf]
  rw [find_filter_ne g h hne narr]

/- ## C2 -/

/-- C2 counterexample: with two observation groups, both with an empty
checked-set and no narrative, the formatted selection text is a lone newline
(each group maps to the empty string, and the two empty strings are joined
with a newline separator), not the empty string the claim requires. -/
theorem c2_counterexample :
    selectionDetails { checkboxes := [("Mood", []), ("Affect", [])], narratives := [] } = "\n" ∧
    selectionDetails { checkboxes := [("Mood", []), ("Affect", [])], narratives := [] } ≠ "" := by
  constructor
  · decide
  · decide

/-- C2 (amended): each observation group with at least one checked option or a
non-empty narrative contributes one line (group name, comma-joined checked
options, appended narrative clause when present) and a group with neither
contributes the empty string, all newline-joined — so the separator newlines
of content-free groups survive, and when every group has an empty checked-set
and no narrative the result is one newline per adjacent group pair (empty only
with at most one group). -/
theorem c2_selection_formatting_amended (s : Selections) :
    selectionDetails s = joinWith "\n" (s.checkboxes.map (formatSelectionsSpecEntry s)) ∧
    ((∀ p ∈ s.checkboxes, p.snd = [] ∧ narrativeOf s p.fst = "") →
      selectionDetails s = newlines (s.checkboxes.length - 1)) := by
  constructor
  · unfold selectionDetails
    refine congrArg (joinWith "\n") (List.map_congr_left ?_)
    intro p _
    by_cases hn : narrativeOf s p.fst = ""
    · by_cases hp : p.snd = []
      · simp [formatSelectionsSpecEntry, hp, hn, truthy]
      · have hlen : (p.snd.length == 0) = false := by
          simp [List.length_eq_zero, hp]
        simp [formatSelectionsSpecEntry, hp, hn, truthy, hlen]
    · have ht : truthy (narrativeOf s p.fst) = true := by simp [truthy, hn]
      simp [formatSelectionsSpecEntry, hn, ht]
  · intro h
    unfold selectionDetails
    rw [map_eq_replicate_empty _ _ (fun p hp => by
      have h1 := (h p hp).1
      have h2 := (h p hp).2
      simp [h1, h2, truthy])]
    exact joinWith_replicate_empty _

/-- C2 amended-claim witness: one group with a checked option, one with
neither; and separately the all-empty instantiation with two groups. -/
theorem c2_selection_formatting_amended_witness :
    (selectionDetails { checkboxes := [("Mood", []), ("Orientation", [])], narratives := [] } =
      joinWith "\n"
        ((([("Mood", ([] : List String)), ("Orientation", [])]).map
          (formatSelectionsSpecEntry { checkboxes := [("Mood", []), ("Orientation", [])], narratives := [] })))) ∧
    selectionDetails { checkboxes := [("Mood", []), ("Orientation", [])], narratives := [] } = newlines 1 :=
  ⟨(c2_selection_formatting_amended _).1,
   (c2_selection_formatting_amended _).2 (by decide)⟩

/- ## C10 -/

/-- C10: the selection-formatting step iterates only the keys of the checkbox
mapping — deleting every narrative entry for a group that has no checkbox
entry leaves the formatted output unchanged, so such a narrative is silently
dropped. -/
theorem c10_selection_ignores_uncheckboxed_narratives (s : Selections) (g : String)
    (h : ∀ p ∈ s.checkboxes, p.fst ≠ g) :
    selectionDetails s =
      selectionDetails
        { checkboxes := s.checkboxes, narratives := s.narratives.filter (fun q => !(q.fst == g)) } := by
  obtain ⟨cb, narr⟩ := s
  unfold selectionDetails
  refine congrArg (joinWith "\n") ((List.map_congr_left ?_).symm)
  intro p hp
  have heq : narrativeOf { checkboxes := cb, narratives := narr.filter (fun q => !(q.fst == g)) } p.fst =
      narrativeOf { checkboxes := cb, narratives := narr } p.fst :=
    narrativeOf_filter_ne cb narr g p.fst (h p hp)
  simp only [heq]

/-- C10 witness: a narrative for group `Affect`, which has no checkbox entry,
does not change the formatted output. -/
theorem c10_selection_ignores_uncheckboxed_narratives_witness :
    selectionDetails
        { checkboxes := [("Mood", ["calm"])], narratives := [("Affect", "flat affect noted")] } =
      selectionDetails
        { checkboxes := [("Mood", ["calm"])],
          narratives := ([("Affect", "flat affect noted")].filter (fun q => !(q.fst == "Affect"))) } :=
  c10_selection_ignores_uncheckboxed_narratives _ "Affect" (by decide)

/- ## C3 -/

set_option maxRecDepth 400000 in
/-- C3 counterexample: a client with a fully populated profile, resolvable
program and partner — every one of the five sections has content, yet the
output contains no `Core Information` heading (nor any other section heading):
the loop reads the section title only as its loop key and never emits it. -/
theorem c3_counterexample :
    formatClientProfileForPrompt
        { id := "c1", name := "Jane Doe", programId := "p1",
          profile := some
            { intakeDate := "2024-01-02", presentingProblem := "Anxiety",
              stageOfChange := "Action", primaryMotivators := "Family",
              readinessRuler := some 7, mbti := "INFJ",
              strengths := ["Resilient"], skillsAndHobbies := ["Art"],
              supportSystem := ["Sister"], barriers := ["Transportation"],
              caseManagementNeeds := ["Housing"], historyOfTrauma := true,
              historyOfSubstanceUse := true, significantMedicalConditions := false,
              notesOnHistory := "Longstanding" } }
        [{ id := "p1", name := "Program One", partnerId := "pa1" }]
        [{ id := "pa1", name := "Acme" }]
      = "### Client Information for: Jane Doe (ID: c1)\n- **Partner:** Acme\n- **Program:** Program One\n- **Intake Date:** 2024-01-02\n- **Presenting Problem:** Anxiety\n- **Stage of Change:** Action\n- **Primary Motivators:** Family\n- **Readiness Ruler:** 7/10\n- **MBTI Type:** INFJ\n- **Strengths:** Resilient\n- **Skills/Hobbies:** Art\n- **Support System:** Sister\n- **Barriers:** Transportation\n- **Case Management Needs:** Housing\n- **Flags:** Trauma, Substance Use\n- **Notes on History:** Longstanding\n" ∧
    hasSub
        (formatClientProfileForPrompt
          { id := "c1", name := "Jane Doe", programId := "p1",
            profile := some
              { intakeDate := "2024-01-02", presentingProblem := "Anxiety",
                stageOfChange := "Action", primaryMotivators := "Family",
                readinessRuler := some 7, mbti := "INFJ",
                strengths := ["Resilient"], skillsAndHobbies := ["Art"],
                supportSystem := ["Sister"], barriers := ["Transportation"],
                caseManagementNeeds := ["Housing"], historyOfTrauma := true,
                historyOfSubstanceUse := true, significantMedicalConditions := false,
                notesOnHistory := "Longstanding" } }
          [{ id := "p1", name := "Program One", partnerId := "pa1" }]
          [{ id := "pa1", name := "Acme" }])
        "Core Information" = false := by
  constructor
  · decide
  · decide

/-- C3 (amended): for a client with a profile, the output is the client header
line followed, for each of the five sections in the fixed order Core
Information, Clinical Framework, Strengths & Supports, Barriers & Needs,
History, by that section's non-empty fields as `- ` bullet lines in the fixed
field order — but no section heading is ever emitted (the rendering discards
the section title), and a section whose fields are all empty contributes the
empty string. -/
theorem c3_profile_sections_amended (client : Client) (profile : ClientProfile)
    (programs : List Program) (partners : List Partner)
    (h : client.profile = some profile) :
    formatClientProfileForPrompt client programs partners =
      "### Client Information for: " ++ client.name ++ " (ID: " ++ client.id ++ ")\n" ++
        strJoin ((profileSections profile
            (programs.find? (fun p => p.id == client.programId))
            (match programs.find? (fun p => p.id == client.programId) with
             | some pr => partners.find? (fun p => p.id == pr.partnerId)
             | none => none)).map
          (fun sec => renderSectionLines (sec.snd.filterMap id))) ∧
    renderSectionLines [] = "" := by
  refine ⟨?_, rfl⟩
  simp only [formatClientProfileForPrompt, h]
  refine Eq.trans
    (foldl_append_of_body _ (fun sec => renderSectionLines (sec.snd.filterMap id)) ?_ _ _) rfl
  intro acc sec
  simp only [renderSectionLines]
  exact if_append _ _ _

/-- C3 amended-claim witness: the amended statement evaluated at the concrete
fully-populated client. -/
theorem c3_profile_sections_amended_witness :
    (formatClientProfileForPrompt
        { id := "c1", name := "Jane Doe", programId := "p1",
          profile := some
            { intakeDate := "2024-01-02", presentingProblem := "Anxiety",
              stageOfChange := "Action", primaryMotivators := "Family",
              readinessRuler := some 7, mbti := "INFJ",
              strengths := ["Resilient"], skillsAndHobbies := ["Art"],
              supportSystem := ["Sister"], barriers := ["Transportation"],
              caseManagementNeeds := ["Housing"], historyOfTrauma := true,
              historyOfSubstanceUse := true, significantMedicalConditions := false,
              notesOnHistory := "Longstanding" } }
        [{ id := "p1", name := "Program One", partnerId := "pa1" }]
        [{ id := "pa1", name := "Acme" }]
      = "### Client Information for: Jane Doe (ID: c1)\n" ++
        strJoin ((profileSections
            { intakeDate := "2024-01-02", presentingProblem := "Anxiety",
              stageOfChange := "Action", primaryMotivators := "Family",
              readinessRuler := some 7, mbti := "INFJ",
              strengths := ["Resilient"], skillsAndHobbies := ["Art"],
              supportSystem := ["Sister"], barriers := ["Transportation"],
              caseManagementNeeds := ["Housing"], historyOfTrauma := true,
              historyOfSubstanceUse := true, significantMedicalConditions := false,
              notesOnHistory := "Longstanding" }
            (some { id := "p1", name := "Program One", partnerId := "pa1" })
            (some { id := "pa1", name := "Acme" })).map
          (fun sec => renderSectionLines (sec.snd.filterMap id))) ∧
    renderSectionLines [] = "") :=
  c3_profile_sections_amended
    { id := "c1", name := "Jane Doe", programId := "p1",
      profile := some
        { intakeDate := "2024-01-02", presentingProblem := "Anxiety",
          stageOfChange := "Action", primaryMotivators := "Family",
          readinessRuler := some 7, mbti := "INFJ",
          strengths := ["Resilient"], skillsAndHobbies := ["Art"],
          supportSystem := ["Sister"], barriers := ["Transportation"],
          caseManagementNeeds := ["Housing"], historyOfTrauma := true,
          historyOfSubstanceUse := true, significantMedicalConditions := false,
          notesOnHistory := "Longstanding" } }
    _ [{ id := "p1", name := "Program One", partnerId := "pa1" }]
    [{ id := "pa1", name := "Acme" }] rfl

/- ## C4 -/

/-- C4 counterexample: a section whose only stored value is a single space is
not skipped (the skip test uses JS truthiness, and `" "` is truthy), so its
heading is emitted — yet the field's paragraph is suppressed by the
trim-based field test, leaving a heading with zero labeled paragraphs.  The
claim's "a heading exactly for sections having at least one non-empty field
value ... followed by one labeled paragraph per non-empty field" fails here
under either reading of non-empty (with `" "` non-empty, the paragraph is
missing; with `" "` empty, the heading should not have appeared). -/
theorem c4_counterexample :
    formatAssessmentDataForPrompt
        [{ id := "s1", title := "Section One", fields := [{ id := "f1", label := "Field One" }] }]
        [("s1", [("f1", " ")])]
      = "\n## Section One\n" := by
  decide

/-- C4 (amended): the formatter emits, in declared section order, a heading
exactly for those sections whose stored record exists and has at least one
value that is not the empty string (JS truthiness — a whitespace-only value
counts, as does a value stored under an id outside the declared field list),
each heading followed by one labeled paragraph per declared field whose value
is non-blank after trimming, in declared field order; a section with no such
stored value contributes nothing. -/
theorem c4_assessment_formatting_amended (sections : List ASection) (data : AssessmentData) :
    formatAssessmentDataForPrompt sections data =
      strJoin (sections.map (assessmentSectionSpecText data)) := by
  unfold formatAssessmentDataForPrompt
  refine Eq.trans (foldl_append_of_body _ (assessmentSectionSpecText data) ?_ _ _)
    (String.empty_append _)
  intro output sec
  simp only [assessmentSectionSpecText]
  cases hl : lookupSection data sec.id with
  | none => rw [String.append_empty]
  | some sd =>
    dsimp only
    by_cases hall : sd.all (fun q => q.snd == "") = true
    · rw [if_pos hall, if_pos hall, String.append_empty]
    · rw [if_neg hall, if_neg hall]
      have hinner := foldl_append_of_body
        (fun o f =>
          if truthy (lookupField sd f.id) && truthy (jsTrim (lookupField sd f.id)) then
            o ++ ("- **" ++ f.label ++ "**\n  - " ++ jsTrim (lookupField sd f.id) ++ "\n")
          else o)
        (fun f =>
          if jsTrim (lookupField sd f.id) ≠ "" then
            "- **" ++ f.label ++ "**\n  - " ++ jsTrim (lookupField sd f.id) ++ "\n"
          else "")
        (fun o f => by
          by_cases hf : jsTrim (lookupField sd f.id) = ""
          · have hv : truthy (jsTrim (lookupField sd f.id)) = false := by simp [truthy, hf]
            simp [hv, hf, truthy, String.append_empty]
          · have hv : lookupField sd f.id ≠ "" := fun he => hf (by rw [he]; rfl)
            simp [truthy, hf, hv])
        sec.fields (output ++ ("\n## " ++ sec.title ++ "\n"))
      exact hinner.trans (String.append_assoc _ _ _)

/- ## C5 -/

/-- C5 counterexample: for a client without profile the returned string is a
client header line plus a second line stating the absence of profile data —
it contains one newline, i.e. two lines, not the single line the claim
states. -/
theorem c5_counterexample :
    formatClientProfileForPrompt { id := "c0", name := "John", profile := none, programId := "" } [] []
        = "### Client: John (ID: c0)\n- Profile data is not available." ∧
    (formatClientProfileForPrompt { id := "c0", name := "John", profile := none, programId := "" } [] []).data.count '\n' = 1 := by
  constructor
  · decide
  · decide

/-- C5 (amended): for every client whose profile is absent, the formatter
returns the fixed two-line string — a client header line and a line indicating
absence of profile data — and, being a total function, never throws. -/
theorem c5_no_profile_two_lines (client : Client) (programs : List Program)
    (partners : List Partner) (h : client.profile = none) :
    formatClientProfileForPrompt client programs partners =
      "### Client: " ++ client.name ++ " (ID: " ++ client.id ++ ")\n- Profile data is not available." := by
  simp only [formatClientProfileForPrompt, h]

/-- C5 amended-claim witness. -/
theorem c5_no_profile_two_lines_witness :
    formatClientProfileForPrompt { id := "c0", name := "John", profile := none, programId := "" } [] []
      = "### Client: " ++ "John" ++ " (ID: " ++ "c0" ++ ")\n- Profile data is not available." :=
  c5_no_profile_two_lines { id := "c0", name := "John", profile := none, programId := "" } [] [] rfl

/- ## C1 -/

/-- C1: when the credential is present, the client list non-empty, the
external call succeeds and the response parses, `generateNotes` resolves with
exactly those parsed entries whose `clientId` belongs to the requested client
set — entries for unrequested ids are silently dropped (the promise still
resolves), and the kept entries stay in API response order (a sublist of the
parsed sequence). -/
theorem c1_generate_notes_filters_response (env : Env) (noteType : NoteType)
    (clients : List Client) (programs : List Program) (partners : List Partner)
    (documents : List Document) (sessionIntervention : String) (selections : Selections)
    (jsonText : String) (parsed : List GeneratedNote)
    (hkey : env.apiKeyPresent = true) (hne : clients ≠ [])
    (hresp : env.respond
        (buildPrompt noteType clients programs partners documents sessionIntervention selections)
      = Except.ok jsonText)
    (hparse : env.parseNotes jsonText = Except.ok parsed) :
    ∃ kept : List GeneratedNote,
      (generateNotes env noteType clients programs partners documents sessionIntervention
          selections).result = Except.ok kept ∧
      kept.Sublist parsed ∧
      (∀ n : GeneratedNote, n ∈ kept ↔ n ∈ parsed ∧ n.clientId ∈ clients.map (fun c => c.id)) := by
  have hlen : (clients.length == 0) = false := by
    cases clients with
    | nil => exact absurd rfl hne
    | cons c cs => rfl
  refine ⟨parsed.filter (fun n => (clients.map (fun c => c.id)).contains n.clientId),
    ?_, List.filter_sublist _, ?_⟩
  · simp [generateNotes, hkey, hlen, hresp, hparse]
  · intro n
    simp [List.mem_filter, List.contains, List.elem_iff]

/-- C1 witness: a response with entries for ids `a`, `b`, `c` when only `a`
and `b` were requested keeps exactly the entries for `a` and `b`. -/
theorem c1_generate_notes_filters_response_witness :
    ∃ kept : List GeneratedNote,
      (generateNotes
          { apiKeyPresent := true,
            respond := fun _ => Except.ok "resp",
            parseNotes := fun _ => Except.ok
              [{ clientId := "a", clientName := "Ann", note := "note a" },
               { clientId := "b", clientName := "Bob", note := "note b" },
               { clientId := "c", clientName := "Cal", note := "note c" }] }
          "Group Note"
          [{ id := "a", name := "Ann", profile := none, programId := "" },
           { id := "b", name := "Bob", profile := none, programId := "" }]
          [] [] [] "topic" { checkboxes := [], narratives := [] }).result = Except.ok kept ∧
      kept.Sublist
        [{ clientId := "a", clientName := "Ann", note := "note a" },
         { clientId := "b", clientName := "Bob", note := "note b" },
         { clientId := "c", clientName := "Cal", note := "note c" }] ∧
      (∀ n : GeneratedNote,
        n ∈ kept ↔
          n ∈ [{ clientId := "a", clientName := "Ann", note := "note a" },
               { clientId := "b", clientName := "Bob", note := "note b" },
               { clientId := "c", clientName := "Cal", note := "note c" }] ∧
          n.clientId ∈
            ([{ id := "a", name := "Ann", profile := none, programId := "" },
              { id := "b", name := "Bob", profile := none, programId := "" }] : List Client).map
              (fun c => c.id)) :=
  c1_generate_notes_filters_response _ _ _ _ _ _ _ _ _ _ rfl (by decide) rfl rfl

/- ## C6 -/

/-- C6: with a credential present, `generateNotes` on an empty client list
resolves with the empty sequence and issues no external request. -/
theorem c6_empty_client_list_short_circuit (env : Env) (noteType : NoteType)
    (programs : List Program) (partners : List Partner) (documents : List Document)
    (sessionIntervention : String) (selections : Selections)
    (hkey : env.apiKeyPresent = true) :
    generateNotes env noteType [] programs partners documents sessionIntervention selections =
      { result := Except.ok [], requestIssued := false } := by
  simp [generateNotes, hkey]

/-- C6 witness: the empty-list call with an environment whose endpoint would
fail if contacted. -/
theorem c6_empty_client_list_short_circuit_witness :
    generateNotes
        { apiKeyPresent := true,
          respond := fun _ => Except.error "network down",
          parseNotes := fun _ => Except.error "bad json" }
        "Individual Note" [] [] [] [] "" { checkboxes := [], narratives := [] } =
      { result := Except.ok [], requestIssued := false } :=
  c6_empty_client_list_short_circuit _ _ _ _ _ _ _ rfl

/- ## C7 -/

/-- C7: when the response body does not parse as the structured note contract,
`generateNotes` rejects with a message that carries the underlying parse
failure (prefixed `Failed to generate notes from AI: `), rather than crashing
or resolving with loosely-typed data. -/
theorem c7_parse_failure_rejects (env : Env) (noteType : NoteType)
    (clients : List Client) (programs : List Program) (partners : List Partner)
    (documents : List Document) (sessionIntervention : String) (selections : Selections)
    (jsonText msg : String)
    (hkey : env.apiKeyPresent = true) (hne : clients ≠ [])
    (hresp : env.respond
        (buildPrompt noteType clients programs partners documents sessionIntervention selections)
      = Except.ok jsonText)
    (hparse : env.parseNotes jsonText = Except.error msg) :
    (generateNotes env noteType clients programs partners documents sessionIntervention
        selections).result = Except.error ("Failed to generate notes from AI: " ++ msg) := by
  have hlen : (clients.length == 0) = false := by
    cases clients with
    | nil => exact absurd rfl hne
    | cons c cs => rfl
  simp [generateNotes, hkey, hlen, hresp, hparse]

/-- C7 witness: a response body that is not valid structured data produces a
rejection whose message embeds the parse failure. -/
theorem c7_parse_failure_rejects_witness :
    (generateNotes
        { apiKeyPresent := true,
          respond := fun _ => Except.ok "this is not JSON",
          parseNotes := fun _ => Except.error "Unexpected token h in JSON at position 1" }
        "Individual Note"
        [{ id := "a", name := "Ann", profile := none, programId := "" }]
        [] [] [] "topic" { checkboxes := [], narratives := [] }).result =
      Except.error ("Failed to generate notes from AI: " ++ "Unexpected token h in JSON at position 1") :=
  c7_parse_failure_rejects _ _ _ _ _ _ _ _ _ _ rfl (by decide) rfl rfl

/- ## C8 -/

/-- C8: with the credential absent, both `generateNotes` and
`generateAssessment` fail synchronously with the configuration-error message
and issue no external request. -/
theorem c8_missing_credential_fails_fast (env : Env) (noteType : NoteType)
    (clients : List Client) (programs : List Program) (partners : List Partner)
    (documents : List Document) (sessionIntervention : String) (selections : Selections)
    (clientInfo : ClientInfoForAssessment) (assessmentType : AssessmentType)
    (sections : List ASection) (data : AssessmentData)
    (hkey : env.apiKeyPresent = false) :
    generateNotes env noteType clients programs partners documents sessionIntervention selections =
      { result := Except.error "API key is missing. Please set the API_KEY environment variable.",
        requestIssued := false } ∧
    generateAssessment env clientInfo assessmentType sections data =
      { result := Except.error "API key is missing. Please set the API_KEY environment variable.",
        requestIssued := false } := by
  constructor
  · simp [generateNotes, hkey]
  · simp [generateAssessment, hkey]

/-- C8 witness: a credential-less environment fails both calls without a
request, even with a working endpoint. -/
theorem c8_missing_credential_fails_fast_witness :
    generateNotes
        { apiKeyPresent := false,
          respond := fun _ => Except.ok "resp",
          parseNotes := fun _ => Except.ok [] }
        "Group Note"
        [{ id := "a", name := "Ann", profile := none, programId := "" }]
        [] [] [] "topic" { checkboxes := [], narratives := [] } =
      { result := Except.error "API key is missing. Please set the API_KEY environment variable.",
        requestIssued := false } ∧
    generateAssessment
        { apiKeyPresent := false,
          respond := fun _ => Except.ok "resp",
          parseNotes := fun _ => Except.ok [] }
        { name := "Ann", dateOfBirth := "", dateOfAssessment := "", clinicianName := "" }
        "Initial Assessment" [] [] =
      { result := Except.error "API key is missing. Please set the API_KEY environment variable.",
        requestIssued := false } :=
  c8_missing_credential_fails_fast _ _ _ _ _ _ _ _ _ _ _ _ rfl

/- ## C9 -/

/-- C9: adding a partner appends the new partner and exactly three new
programs, each referencing the new partner's id, with names drawn in order
from the fixed three-element `PROGRAM_NAMES` list. -/
theorem c9_add_partner_creates_three_programs (st : RosterState) (partnerName : String)
    (now : Nat) :
    ∃ newProgramsForPartner : List Program,
      (handleAddPartner st partnerName now).partners =
        st.partners ++ [{ id := "partner-" ++ toString now, name := partnerName }] ∧
      (handleAddPartner st partnerName now).programs =
        st.programs ++ newProgramsForPartner ∧
      newProgramsForPartner.length = 3 ∧
      PROGRAM_NAMES.length = 3 ∧
      newProgramsForPartner.map Program.name = PROGRAM_NAMES ∧
      ∀ p ∈ newProgramsForPartner, p.partnerId = "partner-" ++ toString now := by
  refine
    ⟨[{ id := "prog-" ++ ("partner-" ++ toString now) ++ "-" ++ toString (0 + 1),
        name := "Standard Program One", partnerId := "partner-" ++ toString now },
      { id := "prog-" ++ ("partner-" ++ toString now) ++ "-" ++ toString (1 + 1),
        name := "Standard Program Two", partnerId := "partner-" ++ toString now },
      { id := "prog-" ++ ("partner-" ++ toString now) ++ "-" ++ toString (2 + 1),
        name := "Standard Program Three", partnerId := "partner-" ++ toString now }],
     rfl, rfl, rfl, rfl, rfl, ?_⟩
  intro p hp
  simp only [List.mem_cons, List.not_mem_nil, or_false] at hp
  rcases hp with rfl | rfl | rfl <;> rfl

end ClinDoc
